import Mathlib

/-!
Verification development for the "Simple Grid Snap" Blender add-on
(`operators.py`).  The numeric core (grid quantizer, on-grid oracle,
invocation policy, step adjustment, quantize-to-grid operator) is embedded
shallowly:

* Python floats are modelled by `PFloat`: a finite rational value, or one of
  the non-finite values `nan`, `inf`, `ninf`.  Exact rational arithmetic
  stands in for IEEE doubles; decimal literals such as `1e-5` are taken at
  their exact value.
* Python's built-in `round` (round-half-to-even, one argument) is `pyRound`.
  On non-finite floats `round` raises (`ValueError` for NaN, `OverflowError`
  for ±∞), which the embedding surfaces through `Except PyErr`.
* Blender context objects (scene properties, tool settings, objects, mesh
  vertices) are plain structures; `matrix_world` application and its inverse
  are abstracted as functions on points.
-/

namespace GridSnap

/-- Exceptions a Python-level numeric operation can raise. -/
inductive PyErr where
  | valueError
  | overflowError
deriving DecidableEq, Repr

/-- Model of a Python float: a finite value (exact rational) or a
non-finite value. -/
inductive PFloat where
  | fin (val : ℚ)
  | nan
  | inf
  | ninf
deriving DecidableEq, Repr

/-- Model of `math.isfinite` from the source's import list. -/
def PFloat.isFinite : PFloat → Bool
  | .fin _ => true
  | _ => false

/-- Python's built-in one-argument `round` on a (finite) value: round half
to even. -/
def pyRound (q : ℚ) : ℤ :=
  if q - (⌊q⌋ : ℚ) < 1/2 then ⌊q⌋
  else if (1:ℚ)/2 < q - (⌊q⌋ : ℚ) then ⌊q⌋ + 1
  else if ⌊q⌋ % 2 = 0 then ⌊q⌋ else ⌊q⌋ + 1

/-- A `mathutils.Vector` of three floats. -/
structure PVec where
  x : PFloat
  y : PFloat
  z : PFloat
deriving DecidableEq, Repr

/-- All three coordinates are finite. -/
def PVec.finiteB (v : PVec) : Bool :=
  v.x.isFinite && v.y.isFinite && v.z.isFinite

/-- Source `_round_to_step(x, s)`: `if s <= 0 or not isfinite(x): return x;
return round(x / s) * s`.  The guard keeps `round` away from non-finite
input, so no exception can arise here. -/
def round_to_step (x : PFloat) (s : ℚ) : PFloat :=
  match x with
  | .fin q => if s ≤ 0 then .fin q else .fin ((pyRound (q / s) : ℚ) * s)
  | other => other

/-- Source `_quantize_vector_world(vec, step)`: per-axis `_round_to_step`. -/
def quantize_vector_world (v : PVec) (step : ℚ) : PVec :=
  ⟨round_to_step v.x step, round_to_step v.y step, round_to_step v.z step⟩

/-- Source `_remainder_to_grid(x, step)`: `if step <= 0: return 0.0;
return abs(x - round(x / step) * step)`.  There is no finiteness guard:
for `step > 0`, `round(nan)` raises `ValueError` and `round(±inf)` raises
`OverflowError`. -/
def remainder_to_grid (x : PFloat) (step : ℚ) : Except PyErr ℚ :=
  if step ≤ 0 then .ok 0
  else
    match x with
    | .fin q => .ok |q - (pyRound (q / step) : ℚ) * step|
    | .nan => .error .valueError
    | .inf => .error .overflowError
    | .ninf => .error .overflowError

/-- Source `_vec_remainder_to_grid(v, step)`: the triple of per-axis remainders,
evaluated left to right (the first exception aborts the tuple). -/
def vec_remainder_to_grid (v : PVec) (step : ℚ) : Except PyErr (ℚ × ℚ × ℚ) := do
  let rx ← remainder_to_grid v.x step
  let ry ← remainder_to_grid v.y step
  let rz ← remainder_to_grid v.z step
  return (rx, ry, rz)

/-- The scan loop shared by all three branches of
`_selection_has_any_on_grid`: walk the world-space points in order,
accumulate `max_r`, and break with `any_on = True` as soon as one point has
all three remainders within `eps`. -/
def scan_points (step eps : ℚ) (acc : ℚ) : List PVec → Except PyErr (Bool × ℚ)
  | [] => .ok (false, acc)
  | v :: rest => do
    let (rx, ry, rz) ← vec_remainder_to_grid v step
    let acc' := max (max (max acc rx) ry) rz
    if rx ≤ eps ∧ ry ≤ eps ∧ rz ≤ eps then .ok (true, acc')
    else scan_points step eps acc' rest

/-- The tolerance `eps = max(1e-5, step * 1e-6)` from `_selection_has_any_on_grid`. -/
def epsQ (step : ℚ) : ℚ := max (1/100000) (step * (1/1000000))

/-- The Grid Alignment Oracle on a bare list of world-space points:
compute `eps`, then run the scan loop starting from `max_r = 0.0`. -/
def oracle (points : List PVec) (step : ℚ) : Except PyErr (Bool × ℚ) :=
  scan_points step (epsQ step) 0 points

/-- The per-point remainder as a pure rational (what `_remainder_to_grid`
returns on a finite coordinate). -/
def remQ (x s : ℚ) : ℚ :=
  if s ≤ 0 then 0 else |x - (pyRound (x / s) : ℚ) * s|

/-- A single point's on-grid test against an explicit tolerance: all three
coordinates are finite and each remainder is within `eps`.  This is the
spec's per-point criterion; a point with a non-finite coordinate never
qualifies. -/
def PVec.onGridEpsB (v : PVec) (s eps : ℚ) : Bool :=
  match v with
  | ⟨.fin a, .fin b, .fin c⟩ =>
    decide (remQ a s ≤ eps ∧ remQ b s ≤ eps ∧ remQ c s ≤ eps)
  | _ => false

/-- A single point's on-grid test at the oracle's own tolerance
`epsQ s`. -/
def PVec.onGridB (v : PVec) (s : ℚ) : Bool :=
  v.onGridEpsB s (epsQ s)

/-- Blender mode string relevant to the add-on. -/
inductive Mode where
  | OBJECT
  | EDIT_MESH
  | OTHER
deriving DecidableEq, Repr

/-- Object type: only `'MESH'` matters to the code. -/
inductive ObjType where
  | MESH
  | OTHER
deriving DecidableEq, Repr

/-- A bmesh vertex: selection flag and local coordinate `co`. -/
structure MeshVert where
  select : Bool
  co : PVec

/-- A Blender object as the add-on reads and writes it.  `matApp` is the
action of `matrix_world` on a local coordinate and `matInvApp` the action of
`matrix_world.inverted()`; both are abstracted as point maps. -/
structure PyObject where
  select : Bool
  location : PVec
  worldTranslation : PVec
  objType : ObjType
  verts : List MeshVert
  matApp : PVec → PVec
  matInvApp : PVec → PVec

/-- The scene tool settings the add-on touches.  The source stores
`snap_angle` in radians (`15 * pi / 180`); the model keeps the angle in
degrees so it stays rational. -/
structure ToolSettings where
  use_snap : Bool
  snap_elements_increment : Bool
  snap_angle_degrees : ℚ
  use_snap_grid_absolute : Bool

/-- The slice of `bpy.context` the operators read: the `hg` property group
(`enabled`, `grid_size`), the tool settings, the mode, the scene's objects
and the index of the active object. -/
structure Context where
  enabled : Bool
  grid_size : ℚ
  ts : ToolSettings
  mode : Mode
  objects : List PyObject
  active : Option ℕ

/-- Model of `context.active_object` (`None` when the index is absent or dangling). -/
def Context.active_object (c : Context) : Option PyObject :=
  match c.active with
  | none => none
  | some i => c.objects[i]?

/-- Model of `context.selected_objects`: the objects whose select flag is set. -/
def Context.selected_objects (c : Context) : List PyObject :=
  c.objects.filter (·.select)

/-- Source `_apply_tool_snap(context)`: enable increment snapping and set the snap
angle.  (The viewport-overlay sync `_sync_viewport_grid` only touches UI
state outside this model.) -/
def apply_tool_snap (c : Context) : Context :=
  { c with ts := { c.ts with
      use_snap := true
      snap_elements_increment := true
      snap_angle_degrees := 15 } }

/-- Source `_set_absolute_snap(context, enable)`. -/
def set_absolute_snap (c : Context) (enable : Bool) : Context :=
  { c with ts := { c.ts with use_snap_grid_absolute := enable } }

/-- Source `_selection_has_any_on_grid(context, step)`: `False` when there is no
active object; otherwise scan the world-space points of the branch picked
by the mode (object origins, selected verts in world space, or just the
active object's origin) and report the short-circuited boolean. -/
def selection_has_any_on_grid (c : Context) (step : ℚ) : Except PyErr Bool :=
  match c.active_object with
  | none => .ok false
  | some obj =>
    if c.mode = Mode.OBJECT then
      let sel := match c.selected_objects with
        | [] => [obj]
        | l => l
      (oracle (sel.map (·.worldTranslation)) step).map (·.1)
    else if obj.objType = ObjType.MESH ∧ c.mode = Mode.EDIT_MESH then
      (oracle ((obj.verts.filter (·.select)).map (fun v => obj.matApp v.co)) step).map (·.1)
    else
      (oracle [obj.worldTranslation] step).map (·.1)

/-- The kind of host transform operator being delegated to. -/
inductive TransformKind where
  | translate
  | rotate
  | resize
deriving DecidableEq, Repr

/-- Value of a `snap_target` keyword argument. -/
inductive SnapTarget where
  | CLOSEST
deriving DecidableEq, Repr

/-- A call to `bpy.ops.transform.*('INVOKE_DEFAULT', **kw)`: which operator
and which keyword arguments were passed (`none` = argument omitted). -/
structure TransformCall where
  kind : TransformKind
  snap : Option Bool := none
  use_proportional_edit : Option Bool := none
  snap_elements_increment : Option Bool := none
  snap_target : Option SnapTarget := none
deriving DecidableEq, Repr

/-- A plain `bpy.ops.transform.*('INVOKE_DEFAULT')` with no keyword
arguments. -/
def plainCall (k : TransformKind) : TransformCall := { kind := k }

/-- The keyword arguments all three `_invoke_*` helpers pass: `snap=True`,
`use_proportional_edit=False`, `snap_elements={'INCREMENT'}`,
`snap_target='CLOSEST'`. -/
def snapCall (k : TransformKind) : TransformCall :=
  { kind := k
    snap := some true
    use_proportional_edit := some false
    snap_elements_increment := some true
    snap_target := some SnapTarget.CLOSEST }

/-- Source `_invoke_translate(context)`: run the oracle on the current selection,
toggle absolute snap to the negation of its answer, then delegate a
snapping translate. -/
def invoke_translate (c : Context) : Except PyErr (Context × TransformCall) := do
  let has ← selection_has_any_on_grid c c.grid_size
  return (set_absolute_snap c (!has), snapCall .translate)

/-- Source `_invoke_rotate(context)`: delegate a snapping rotate; nothing else. -/
def invoke_rotate (c : Context) : Context × TransformCall :=
  (c, snapCall .rotate)

/-- Source `_invoke_scale(context)`: delegate a snapping resize; nothing else. -/
def invoke_scale (c : Context) : Context × TransformCall :=
  (c, snapCall .resize)

/-- Source `HG_OT_move.invoke`: plain translate when the feature is disabled,
otherwise snap baseline then `_invoke_translate`. -/
def HG_OT_move_invoke (c : Context) : Except PyErr (Context × TransformCall) :=
  if !c.enabled then .ok (c, plainCall .translate)
  else invoke_translate (apply_tool_snap c)

/-- Source `HG_OT_rotate.invoke`: plain rotate when disabled, otherwise snap
baseline then `_invoke_rotate`. -/
def HG_OT_rotate_invoke (c : Context) : Context × TransformCall :=
  if !c.enabled then (c, plainCall .rotate)
  else invoke_rotate (apply_tool_snap c)

/-- Source `HG_OT_scale.invoke`: plain resize when disabled, otherwise snap
baseline then `_invoke_scale`. -/
def HG_OT_scale_invoke (c : Context) : Context × TransformCall :=
  if !c.enabled then (c, plainCall .resize)
  else invoke_scale (apply_tool_snap c)

/-- Operator return status. -/
inductive OpResult where
  | FINISHED
  | CANCELLED
deriving DecidableEq, Repr

/-- Source `HG_OT_quantize_to_grid.execute`: cancelled without an active object;
in object mode quantize every selected object's `location`; in mesh edit
mode quantize every selected vert's world position and write it back
through the inverse matrix; cancelled in any other mode. -/
def HG_OT_quantize_to_grid_execute (c : Context) : Context × OpResult :=
  let step := c.grid_size
  match c.active with
  | none => (c, .CANCELLED)
  | some i =>
    match c.objects[i]? with
    | none => (c, .CANCELLED)
    | some obj =>
      if c.mode = Mode.OBJECT then
        ({ c with objects := c.objects.map fun ob =>
            if ob.select then { ob with location := quantize_vector_world ob.location step }
            else ob },
         .FINISHED)
      else if obj.objType = ObjType.MESH ∧ c.mode = Mode.EDIT_MESH then
        let obj' := { obj with verts := obj.verts.map fun v =>
            if v.select then { v with co := obj.matInvApp (quantize_vector_world (obj.matApp v.co) step) }
            else v }
        ({ c with objects := c.objects.set i obj' }, .FINISHED)
      else (c, .CANCELLED)

/-- Source `HG_OT_grid_step_down.execute`:
`hg.grid_size = max(1e-6, hg.grid_size * 0.5)`, then re-apply the snap
baseline.  Always `{'FINISHED'}`. -/
def HG_OT_grid_step_down_execute (c : Context) : Context × OpResult :=
  (apply_tool_snap { c with grid_size := max (1/1000000) (c.grid_size * (1/2)) },
   .FINISHED)

/-- Source `HG_OT_grid_step_up.execute`:
`hg.grid_size = min(1e6, hg.grid_size * 2.0)`, then re-apply the snap
baseline.  Always `{'FINISHED'}`. -/
def HG_OT_grid_step_up_execute (c : Context) : Context × OpResult :=
  (apply_tool_snap { c with grid_size := min 1000000 (c.grid_size * 2) },
   .FINISHED)

/-! Concrete data used by witnesses and counterexamples. -/

/-- The origin point. -/
def vZero : PVec := ⟨.fin 0, .fin 0, .fin 0⟩

/-- A point with a NaN coordinate. -/
def vNan : PVec := ⟨.nan, .fin 0, .fin 0⟩

/-- A finite off-grid point, with a half-step tie on the z axis. -/
def vQ : PVec := ⟨.fin (7/5), .fin (-8/5), .fin (1/2)⟩

/-- Default tool settings with everything off. -/
def ts0 : ToolSettings :=
  { use_snap := false
    snap_elements_increment := false
    snap_angle_degrees := 0
    use_snap_grid_absolute := false }

/-- Tool settings left over from an earlier gesture with absolute-grid
correction on. -/
def tsAbs : ToolSettings :=
  { ts0 with use_snap_grid_absolute := true }

/-- A selected mesh object sitting exactly at the world origin. -/
def objOrigin : PyObject :=
  { select := true
    location := vZero
    worldTranslation := vZero
    objType := ObjType.MESH
    verts := []
    matApp := fun v => v
    matInvApp := fun v => v }

/-- A context in object mode with the feature enabled, one selected object
on the grid, and a stale `use_snap_grid_absolute = True` from before. -/
def ctxC1 : Context :=
  { enabled := true
    grid_size := 1
    ts := tsAbs
    mode := Mode.OBJECT
    objects := [objOrigin]
    active := some 0 }

/-- A context whose grid step has been edited to `4e6`, above the upper
clamp bound. -/
def ctxC8 : Context :=
  { enabled := true
    grid_size := 4000000
    ts := ts0
    mode := Mode.OBJECT
    objects := []
    active := none }

/-- A context whose grid step sits at the lower clamp bound `1e-6`. -/
def ctxStepMin : Context :=
  { enabled := true
    grid_size := 1/1000000
    ts := ts0
    mode := Mode.OBJECT
    objects := []
    active := none }

/-- A context whose grid step sits at the upper clamp bound `1e6`. -/
def ctxStepMax : Context :=
  { enabled := true
    grid_size := 1000000
    ts := ts0
    mode := Mode.OBJECT
    objects := []
    active := none }

/-- A context with the feature enabled and no active object. -/
def ctxC9 : Context :=
  { enabled := true
    grid_size := 1
    ts := ts0
    mode := Mode.OBJECT
    objects := []
    active := none }

/-- A mesh object with one selected off-grid vertex and one unselected
off-grid vertex. -/
def objMeshC10 : PyObject :=
  { select := true
    location := vZero
    worldTranslation := vZero
    objType := ObjType.MESH
    verts := [ { select := true, co := ⟨.fin (3/10), .fin 0, .fin 0⟩ },
               { select := false, co := ⟨.fin (1/2), .fin 0, .fin 0⟩ } ]
    matApp := fun v => v
    matInvApp := fun v => v }

/-- An edit-mesh context over `objMeshC10`. -/
def ctxC10 : Context :=
  { enabled := true
    grid_size := 1
    ts := ts0
    mode := Mode.EDIT_MESH
    objects := [objMeshC10]
    active := some 0 }

/-! Helper lemmas. -/

/-- Python's `round` is the identity on integers. -/
theorem pyRound_intCast (k : ℤ) : pyRound (k : ℚ) = k := by
  norm_num [pyRound, Int.floor_intCast]

/-- Lemma: `_round_to_step` on a finite coordinate with a positive step. -/
theorem round_to_step_fin_pos (q s : ℚ) (hs : 0 < s) :
    round_to_step (.fin q) s = .fin ((pyRound (q / s) : ℚ) * s) := by
  simp [round_to_step, not_le.mpr hs]

/-- An exact grid multiple is a fixed point of `_round_to_step`. -/
theorem round_to_step_mul (k : ℤ) (s : ℚ) (hs : 0 < s) :
    round_to_step (.fin ((k : ℚ) * s)) s = .fin ((k : ℚ) * s) := by
  rw [round_to_step_fin_pos _ _ hs, mul_div_cancel_right₀ _ (ne_of_gt hs),
    pyRound_intCast]

/-- An exact grid multiple has remainder zero. -/
theorem remainder_to_grid_mul (k : ℤ) (s : ℚ) (hs : 0 < s) :
    remainder_to_grid (.fin ((k : ℚ) * s)) s = .ok 0 := by
  simp [remainder_to_grid, not_le.mpr hs,
    mul_div_cancel_right₀ ((k : ℚ)) (ne_of_gt hs), pyRound_intCast]

/-- Lemma: `_remainder_to_grid` on a finite coordinate never raises and returns
the pure remainder `remQ`. -/
theorem remainder_to_grid_fin (a s : ℚ) :
    remainder_to_grid (.fin a) s = .ok (remQ a s) := by
  simp only [remainder_to_grid, remQ]
  split <;> rfl

/-- Lemma: `_vec_remainder_to_grid` on a finite point never raises. -/
theorem vec_remainder_to_grid_fin (a b c s : ℚ) :
    vec_remainder_to_grid ⟨.fin a, .fin b, .fin c⟩ s =
      .ok (remQ a s, remQ b s, remQ c s) := by
  simp [vec_remainder_to_grid, remainder_to_grid_fin, Except.bind, bind, pure,
    Except.pure]

/-- A point whose coordinates are all finite is a triple of `fin`s. -/
theorem finiteB_elim (v : PVec) (h : v.finiteB = true) :
    ∃ a b c : ℚ, v = ⟨.fin a, .fin b, .fin c⟩ := by
  obtain ⟨x, y, z⟩ := v
  cases x <;> cases y <;> cases z <;>
    simp_all [PVec.finiteB, PFloat.isFinite]

/-- On a selection of finite points the scan loop never raises and computes
exactly the short-circuited disjunction of the per-point tests. -/
theorem scan_points_finite (s eps : ℚ) :
    ∀ (ps : List PVec) (acc : ℚ), (∀ p ∈ ps, p.finiteB = true) →
      ∃ m, scan_points s eps acc ps =
        .ok (ps.any (fun v => v.onGridEpsB s eps), m) := by
  intro ps
  induction ps with
  | nil => intro acc _; exact ⟨acc, rfl⟩
  | cons v rest ih =>
    intro acc hfin
    obtain ⟨a, b, c, rfl⟩ := finiteB_elim v (hfin v (List.mem_cons_self v rest))
    have hrest : ∀ p ∈ rest, p.finiteB = true :=
      fun p hp => hfin p (List.mem_cons_of_mem _ hp)
    by_cases h : remQ a s ≤ eps ∧ remQ b s ≤ eps ∧ remQ c s ≤ eps
    · refine ⟨max (max (max acc (remQ a s)) (remQ b s)) (remQ c s), ?_⟩
      simp [scan_points, vec_remainder_to_grid_fin, Except.bind, bind, h,
        PVec.onGridEpsB]
    · obtain ⟨m, hm⟩ := ih (max (max (max acc (remQ a s)) (remQ b s)) (remQ c s)) hrest
      refine ⟨m, ?_⟩
      simp [scan_points, vec_remainder_to_grid_fin, Except.bind, bind, h,
        PVec.onGridEpsB, hm]

/-- A permutation does not change `List.any`. -/
theorem perm_any_eq {α : Type} {l₁ l₂ : List α} (h : l₁.Perm l₂)
    (f : α → Bool) : l₁.any f = l₂.any f := by
  cases h1 : l₁.any f <;> cases h2 : l₂.any f <;> try rfl
  · rw [List.any_eq_true] at h2
    obtain ⟨x, hx, hfx⟩ := h2
    have h3 : l₁.any f = true := List.any_eq_true.mpr ⟨x, h.mem_iff.mpr hx, hfx⟩
    rw [h1] at h3; cases h3
  · rw [List.any_eq_true] at h1
    obtain ⟨x, hx, hfx⟩ := h1
    have h3 : l₂.any f = true := List.any_eq_true.mpr ⟨x, h.mem_iff.mp hx, hfx⟩
    rw [h2] at h3; cases h3

/-! Claim theorems. -/

/-- C5: the Grid Alignment Oracle on an empty selection returns
`any_on_grid = false` with `max_remainder = 0`, for every step value. -/
theorem C5_empty_selection (s : ℚ) : oracle [] s = .ok (false, 0) := rfl

/-- C3 (code bug): contrary to the claim, `_remainder_to_grid` raises on a
non-finite coordinate whenever `step > 0` (`round(nan)` is `ValueError`,
`round(inf)` is `OverflowError`), and the exception aborts the oracle's
scan even when a later point is exactly on the grid.  The quantizer's
`_round_to_step` does guard with `isfinite` and passes non-finite input
through unchanged. -/
theorem C3_oracle_raises_on_nan :
    remainder_to_grid PFloat.nan 1 = .error .valueError ∧
    remainder_to_grid PFloat.inf 1 = .error .overflowError ∧
    oracle [vNan, vZero] 1 = .error .valueError ∧
    round_to_step PFloat.nan 1 = PFloat.nan ∧
    round_to_step PFloat.inf 1 = PFloat.inf := by
  refine ⟨?_, ?_, ?_, rfl, rfl⟩ <;>
    norm_num [oracle, scan_points, vec_remainder_to_grid, remainder_to_grid,
      Except.bind, bind, vNan, vZero]

/-- A grid multiple has zero pure remainder. -/
theorem remQ_mul (k : ℤ) (s : ℚ) (hs : 0 < s) : remQ ((k : ℚ) * s) s = 0 := by
  simp [remQ, not_le.mpr hs, mul_div_cancel_right₀ ((k : ℚ)) (ne_of_gt hs),
    pyRound_intCast]

/-- The oracle's tolerance is nonnegative. -/
theorem epsQ_nonneg (s : ℚ) : (0 : ℚ) ≤ epsQ s :=
  le_trans (by norm_num) (le_max_left (1/100000) (s * (1/1000000)))

/-- C4: the Quantizer maps a point per-axis independently; on a finite
coordinate it computes `round(coordinate/step) * step`; a non-finite
coordinate passes through unchanged; and the single rounding convention for
half-step ties is round-half-to-even. -/
theorem C4_quantizer_per_axis (v : PVec) (s : ℚ) (hs : 0 < s) :
    quantize_vector_world v s =
      ⟨round_to_step v.x s, round_to_step v.y s, round_to_step v.z s⟩ ∧
    (∀ q : ℚ, round_to_step (.fin q) s = .fin ((pyRound (q / s) : ℚ) * s)) ∧
    (∀ x : PFloat, x.isFinite = false → round_to_step x s = x) ∧
    (∀ k : ℤ, pyRound ((k : ℚ) + 1/2) = if k % 2 = 0 then k else k + 1) := by
  refine ⟨rfl, fun q => round_to_step_fin_pos q s hs, ?_, ?_⟩
  · intro x hx
    cases x <;> simp_all [PFloat.isFinite, round_to_step]
  · intro k
    have hf : ⌊(k : ℚ) + 1/2⌋ = k := by
      rw [Int.floor_int_add]; norm_num
    have hd : (k : ℚ) + 1/2 - k = 1/2 := by ring
    simp only [pyRound, hf, hd]
    norm_num

/-- C4 witness: the quantizer instantiated at a concrete point and step. -/
theorem C4_quantizer_per_axis_witness :
    quantize_vector_world vQ 1 =
      ⟨round_to_step vQ.x 1, round_to_step vQ.y 1, round_to_step vQ.z 1⟩ :=
  (C4_quantizer_per_axis vQ 1 (by norm_num)).1

/-- C6: a quantized finite point passes the oracle's own on-grid check:
each axis remainder is zero (hence at most `epsilon`), and the oracle on
the singleton selection answers `any_on_grid = true`. -/
theorem C6_quantize_on_grid (v : PVec) (s : ℚ) (hv : v.finiteB = true)
    (hs : 0 < s) :
    (∀ a : ℚ, remainder_to_grid (round_to_step (.fin a) s) s = .ok 0) ∧
    (0 : ℚ) ≤ epsQ s ∧
    oracle [quantize_vector_world v s] s = .ok (true, 0) := by
  have h0 := epsQ_nonneg s
  refine ⟨?_, h0, ?_⟩
  · intro a
    rw [round_to_step_fin_pos _ _ hs]
    exact remainder_to_grid_mul _ _ hs
  · obtain ⟨a, b, c, rfl⟩ := finiteB_elim v hv
    simp [quantize_vector_world, round_to_step_fin_pos _ _ hs, oracle,
      scan_points, vec_remainder_to_grid_fin, remQ_mul _ _ hs, Except.bind,
      bind, h0]

/-- C6 witness: the oracle accepts the quantization of a concrete off-grid
point. -/
theorem C6_quantize_on_grid_witness :
    oracle [quantize_vector_world vQ 1] 1 = .ok (true, 0) :=
  (C6_quantize_on_grid vQ 1 rfl (by norm_num)).2.2

/-- C7: quantization of a finite point is idempotent. -/
theorem C7_quantize_idempotent (v : PVec) (s : ℚ) (hv : v.finiteB = true)
    (hs : 0 < s) :
    quantize_vector_world (quantize_vector_world v s) s =
      quantize_vector_world v s := by
  obtain ⟨a, b, c, rfl⟩ := finiteB_elim v hv
  have h1 : ∀ q : ℚ, round_to_step (round_to_step (.fin q) s) s =
      round_to_step (.fin q) s := by
    intro q
    rw [round_to_step_fin_pos _ _ hs, round_to_step_mul _ _ hs]
  simp [quantize_vector_world, h1]

/-- C7 witness: idempotence at a concrete point and step. -/
theorem C7_quantize_idempotent_witness :
    quantize_vector_world (quantize_vector_world vQ 1) 1 =
      quantize_vector_world vQ 1 :=
  C7_quantize_idempotent vQ 1 rfl (by norm_num)

/-- C2 counterexample: on selections containing a non-finite point the
boolean outcome of the oracle does depend on the order of the points: with
the on-grid point first the scan short-circuits to `true`, with the NaN
point first the scan raises instead of returning a boolean. -/
theorem C2_counterexample :
    oracle [vZero, vNan] 1 = .ok (true, 0) ∧
    oracle [vNan, vZero] 1 = .error .valueError ∧
    List.Perm [vZero, vNan] [vNan, vZero] := by
  refine ⟨?_, ?_, List.Perm.swap vNan vZero []⟩ <;>
    norm_num [oracle, scan_points, vec_remainder_to_grid, remainder_to_grid,
      pyRound, Except.bind, bind, pure, Except.pure, vNan, vZero, epsQ,
      abs_of_nonneg, abs_of_nonpos]

/-- C2 (amended to selections of finite points): the oracle never raises,
returns `true` exactly when some point has all three axis remainders within
`epsilon = max(1e-5, step * 1e-6)`, and its boolean does not depend on the
order of the points. -/
theorem C2_oracle_any_on_grid (s : ℚ) (ps qs : List PVec) (hs : 0 < s)
    (hfin : ∀ p ∈ ps, p.finiteB = true) (hperm : ps.Perm qs) :
    ∃ b m m', oracle ps s = .ok (b, m) ∧ oracle qs s = .ok (b, m') ∧
      (b = true ↔ ∃ p ∈ ps, p.onGridB s = true) := by
  obtain ⟨m, hm⟩ := scan_points_finite s (epsQ s) ps 0 hfin
  have hfinq : ∀ p ∈ qs, p.finiteB = true :=
    fun p hp => hfin p (hperm.mem_iff.mpr hp)
  obtain ⟨m', hm'⟩ := scan_points_finite s (epsQ s) qs 0 hfinq
  refine ⟨ps.any (fun v => v.onGridEpsB s (epsQ s)), m, m', hm, ?_, ?_⟩
  · rw [show oracle qs s = scan_points s (epsQ s) 0 qs from rfl, hm',
      perm_any_eq hperm (fun v => v.onGridEpsB s (epsQ s))]
  · rw [List.any_eq_true]
    exact Iff.rfl

/-- C2 witness: the amended oracle statement at a concrete singleton
selection. -/
theorem C2_oracle_any_on_grid_witness :
    ∃ b m m', oracle [vZero] 1 = .ok (b, m) ∧ oracle [vZero] 1 = .ok (b, m') ∧
      (b = true ↔ ∃ p ∈ [vZero], p.onGridB 1 = true) :=
  C2_oracle_any_on_grid 1 [vZero] [vZero] (by norm_num)
    (by intro p hp; rw [List.mem_singleton] at hp; subst hp; rfl)
    (List.Perm.refl _)

/-- C1 counterexample: a rotate (or scale) gesture with snapping enabled
does not recompute the absolute-grid flag: the oracle reports the selection
on-grid, so the claim demands the flag be set to RELATIVE (`false`), yet the
stale `true` from an earlier gesture survives the invocation. -/
theorem C1_counterexample :
    ctxC1.enabled = true ∧
    selection_has_any_on_grid ctxC1 ctxC1.grid_size = .ok true ∧
    (HG_OT_rotate_invoke ctxC1).1.ts.use_snap_grid_absolute ≠ false ∧
    (HG_OT_scale_invoke ctxC1).1.ts.use_snap_grid_absolute ≠ false := by
  refine ⟨rfl, ?_, ?_, ?_⟩
  · norm_num [selection_has_any_on_grid, Context.active_object,
      Context.selected_objects, ctxC1, objOrigin, vZero, oracle, scan_points,
      vec_remainder_to_grid, remainder_to_grid, pyRound, Except.bind, bind,
      pure, Except.pure, Except.map, epsQ, abs_of_nonneg, abs_of_nonpos]
  · have h : (HG_OT_rotate_invoke ctxC1).1.ts.use_snap_grid_absolute = true := rfl
    simp [h]
  · have h : (HG_OT_scale_invoke ctxC1).1.ts.use_snap_grid_absolute = true := rfl
    simp [h]

/-- C1 (amended): only the move gesture recomputes the absolute-grid flag
fresh from the oracle (`use_snap_grid_absolute = not any_on_grid`); rotate
and scale invocations leave the flag exactly as it was. -/
theorem C1_absolute_flag_policy (c : Context) (b : Bool) (he : c.enabled = true)
    (hb : selection_has_any_on_grid c c.grid_size = .ok b) :
    HG_OT_move_invoke c =
      .ok (set_absolute_snap (apply_tool_snap c) (!b), snapCall .translate) ∧
    (set_absolute_snap (apply_tool_snap c) (!b)).ts.use_snap_grid_absolute = !b ∧
    (HG_OT_rotate_invoke c).1.ts.use_snap_grid_absolute =
      c.ts.use_snap_grid_absolute ∧
    (HG_OT_scale_invoke c).1.ts.use_snap_grid_absolute =
      c.ts.use_snap_grid_absolute := by
  have hb' : selection_has_any_on_grid (apply_tool_snap c)
      ((apply_tool_snap c).grid_size) = .ok b := hb
  refine ⟨?_, rfl, ?_, ?_⟩
  · simp [HG_OT_move_invoke, he, invoke_translate, hb', Except.bind, bind,
      pure, Except.pure]
  · simp [HG_OT_rotate_invoke, he, invoke_rotate, apply_tool_snap,
      set_absolute_snap]
  · simp [HG_OT_scale_invoke, he, invoke_scale, apply_tool_snap,
      set_absolute_snap]

/-- C1 witness: at a concrete on-grid context the move gesture turns the
absolute flag off while rotate leaves the stale flag untouched. -/
theorem C1_absolute_flag_policy_witness :
    HG_OT_move_invoke ctxC1 =
      .ok (set_absolute_snap (apply_tool_snap ctxC1) (!true), snapCall .translate) ∧
    (HG_OT_rotate_invoke ctxC1).1.ts.use_snap_grid_absolute =
      ctxC1.ts.use_snap_grid_absolute := by
  have h := C1_absolute_flag_policy ctxC1 true rfl
    (by norm_num [selection_has_any_on_grid, Context.active_object,
      Context.selected_objects, ctxC1, objOrigin, vZero, oracle, scan_points,
      vec_remainder_to_grid, remainder_to_grid, pyRound, Except.bind, bind,
      pure, Except.pure, Except.map, epsQ, abs_of_nonneg, abs_of_nonpos])
  exact ⟨h.1, h.2.2.1⟩

/-- C8 counterexample: from a user-edited step of `4e6` the halve operation
yields `2e6`, outside `[1e-6, 1e6]` — `_grid_step_down` only clamps from
below. -/
theorem C8_counterexample :
    ¬ ((HG_OT_grid_step_down_execute ctxC8).1.grid_size ≤ 1000000) := by
  norm_num [HG_OT_grid_step_down_execute, apply_tool_snap, ctxC8, max_def]

/-- C8 (amended): halving clamps from below at `1e-6` (and stays within
`[1e-6, 1e6]` whenever the starting step is at most `2e6`); doubling clamps
from above at `1e6` (and stays within the interval whenever the starting
step is at least `5e-7`); halving a step of `1e-6` leaves it at `1e-6` and
doubling a step of `1e6` leaves it at `1e6`. -/
theorem C8_step_clamp (c : Context) :
    (1/1000000 : ℚ) ≤ (HG_OT_grid_step_down_execute c).1.grid_size ∧
    (c.grid_size ≤ 2000000 →
      (HG_OT_grid_step_down_execute c).1.grid_size ≤ 1000000) ∧
    (HG_OT_grid_step_up_execute c).1.grid_size ≤ 1000000 ∧
    ((1/2000000 : ℚ) ≤ c.grid_size →
      (1/1000000 : ℚ) ≤ (HG_OT_grid_step_up_execute c).1.grid_size) ∧
    (c.grid_size = 1/1000000 →
      (HG_OT_grid_step_down_execute c).1.grid_size = 1/1000000) ∧
    (c.grid_size = 1000000 →
      (HG_OT_grid_step_up_execute c).1.grid_size = 1000000) := by
  simp only [HG_OT_grid_step_down_execute, HG_OT_grid_step_up_execute,
    apply_tool_snap]
  refine ⟨le_max_left _ _, ?_, min_le_left _ _, ?_, ?_, ?_⟩
  · intro h
    exact max_le (by norm_num) (by linarith)
  · intro h
    exact le_min (by norm_num) (by linarith)
  · intro h
    rw [h]; norm_num [max_def]
  · intro h
    rw [h]; norm_num [min_def]

/-- C8 witness: the two boundary scenarios, at concrete contexts sitting on
each clamp bound. -/
theorem C8_step_clamp_witness :
    (HG_OT_grid_step_down_execute ctxStepMin).1.grid_size = 1/1000000 ∧
    (HG_OT_grid_step_up_execute ctxStepMax).1.grid_size = 1000000 :=
  ⟨(C8_step_clamp ctxStepMin).2.2.2.2.1 rfl,
   (C8_step_clamp ctxStepMax).2.2.2.2.2 rfl⟩

/-- C9 counterexample: with snapping enabled and no active object, the move
gesture is not delegated plain and unmodified — it is invoked with
`snap=True` (and friends) after the tool settings were configured for
snapping. -/
theorem C9_counterexample :
    (HG_OT_move_invoke ctxC9).map (fun r => (r.2, r.1.ts.use_snap)) =
      .ok (snapCall .translate, true) ∧
    snapCall .translate ≠ plainCall .translate := by
  exact ⟨rfl, by decide⟩

/-- C9 (amended): the plain unmodified delegation happens when the feature
is disabled; with the feature enabled and no active object the invocation
does not raise, but it configures snapping (baseline on, absolute-grid
correction on, since the oracle reports nothing on-grid) and delegates a
snapping translate. -/
theorem C9_no_selection_policy (c : Context) :
    (c.enabled = false → HG_OT_move_invoke c = .ok (c, plainCall .translate)) ∧
    (c.enabled = true → c.active_object = none →
      HG_OT_move_invoke c =
        .ok (set_absolute_snap (apply_tool_snap c) true, snapCall .translate) ∧
      (set_absolute_snap (apply_tool_snap c) true).ts.use_snap = true ∧
      (set_absolute_snap (apply_tool_snap c) true).ts.use_snap_grid_absolute
        = true) := by
  constructor
  · intro h
    simp [HG_OT_move_invoke, h]
  · intro he ha
    have ha' : Context.active_object (apply_tool_snap c) = none := ha
    have h0 : selection_has_any_on_grid (apply_tool_snap c)
        ((apply_tool_snap c).grid_size) = .ok false := by
      simp [selection_has_any_on_grid, ha']
    refine ⟨?_, rfl, rfl⟩
    simp [HG_OT_move_invoke, he, invoke_translate, h0, Except.bind, bind,
      pure, Except.pure]

/-- C9 witness: the enabled, no-active-object branch at a concrete
context. -/
theorem C9_no_selection_policy_witness :
    HG_OT_move_invoke ctxC9 =
      .ok (set_absolute_snap (apply_tool_snap ctxC9) true, snapCall .translate) :=
  (((C9_no_selection_policy ctxC9).2) rfl rfl).1

/-- C10: the one-shot quantize operator only moves selected elements.
Without an active object it cancels and changes nothing; in a mode other
than object or mesh-edit it cancels and changes nothing; in object mode it
rewrites exactly the selected objects' locations (per-object, only the
`location` field) and leaves every unselected object untouched; in
mesh-edit mode it rewrites only the active object, replacing exactly the
selected verts' coordinates and leaving unselected verts and all other
objects untouched. -/
theorem C10_quantize_frame (c : Context) :
    (c.active_object = none →
      HG_OT_quantize_to_grid_execute c = (c, OpResult.CANCELLED)) ∧
    (∀ (i : ℕ) (obj : PyObject), c.active = some i → c.objects[i]? = some obj →
      ((c.mode ≠ Mode.OBJECT ∧
          ¬(obj.objType = ObjType.MESH ∧ c.mode = Mode.EDIT_MESH)) →
        HG_OT_quantize_to_grid_execute c = (c, OpResult.CANCELLED)) ∧
      (c.mode = Mode.OBJECT →
        (HG_OT_quantize_to_grid_execute c).2 = OpResult.FINISHED ∧
        (∀ (j : ℕ) (ob : PyObject), c.objects[j]? = some ob → ob.select = false →
          (HG_OT_quantize_to_grid_execute c).1.objects[j]? = some ob) ∧
        (∀ (j : ℕ) (ob : PyObject), c.objects[j]? = some ob → ob.select = true →
          (HG_OT_quantize_to_grid_execute c).1.objects[j]? =
            some { ob with
              location := quantize_vector_world ob.location c.grid_size })) ∧
      ((obj.objType = ObjType.MESH ∧ c.mode = Mode.EDIT_MESH) →
        (HG_OT_quantize_to_grid_execute c).2 = OpResult.FINISHED ∧
        (∀ j, j ≠ i →
          (HG_OT_quantize_to_grid_execute c).1.objects[j]? = c.objects[j]?) ∧
        (HG_OT_quantize_to_grid_execute c).1.objects[i]? =
          some { obj with verts := obj.verts.map (fun v =>
            if v.select
            then { v with co := (obj.matInvApp (quantize_vector_world (obj.matApp v.co) c.grid_size)) }
            else v) } ∧
        (∀ (k : ℕ) (v : MeshVert), obj.verts[k]? = some v → v.select = false →
          (obj.verts.map (fun v =>
            if v.select
            then { v with co := (obj.matInvApp (quantize_vector_world (obj.matApp v.co) c.grid_size)) }
            else v))[k]? = some v))) := by
  constructor
  · intro h
    cases ha : c.active with
    | none => simp [HG_OT_quantize_to_grid_execute, ha]
    | some i =>
      have hio : c.objects[i]? = none := by
        simpa [Context.active_object, ha] using h
      simp [HG_OT_quantize_to_grid_execute, ha, hio]
  · intro i obj hai hobj
    refine ⟨?_, ?_, ?_⟩
    · intro ⟨hm1, hm2⟩
      simp [HG_OT_quantize_to_grid_execute, hai, hobj, hm1, hm2]
    · intro hm
      have he : HG_OT_quantize_to_grid_execute c =
          ({ c with objects := c.objects.map fun ob =>
              if ob.select
              then { ob with
                location := quantize_vector_world ob.location c.grid_size }
              else ob },
           OpResult.FINISHED) := by
        simp [HG_OT_quantize_to_grid_execute, hai, hobj, hm]
      refine ⟨by rw [he], ?_, ?_⟩
      · intro j ob hj hsel
        rw [he]
        simp [List.getElem?_map, hj, hsel]
      · intro j ob hj hsel
        rw [he]
        simp [List.getElem?_map, hj, hsel]
    · intro hmesh
      obtain ⟨ht, hm⟩ := hmesh
      have hmo : ¬ (c.mode = Mode.OBJECT) := by
        rw [hm]; intro hcon; cases hcon
      have he : HG_OT_quantize_to_grid_execute c =
          ({ c with objects := c.objects.set i { obj with
              verts := obj.verts.map (fun v =>
                if v.select
                then { v with co := (obj.matInvApp (quantize_vector_world (obj.matApp v.co) c.grid_size)) }
                else v) } },
           OpResult.FINISHED) := by
        simp [HG_OT_quantize_to_grid_execute, hai, hobj, hmo, ht, hm]
      have hlen : i < c.objects.length :=
        (List.getElem?_eq_some.mp hobj).1
      refine ⟨by rw [he], ?_, ?_, ?_⟩
      · intro j hj
        rw [he]
        exact List.getElem?_set_ne (fun hcon => hj hcon.symm)
      · rw [he]
        exact List.getElem?_set_eq_of_lt _ hlen
      · intro k v hk hsel
        simp [List.getElem?_map, hk, hsel]

/-- C10 witness: at a concrete edit-mesh context the operator finishes,
rewrites the active mesh object's selected verts, and leaves the unselected
vert untouched. -/
theorem C10_quantize_frame_witness :
    (HG_OT_quantize_to_grid_execute ctxC10).2 = OpResult.FINISHED ∧
    (HG_OT_quantize_to_grid_execute ctxC10).1.objects[0]? =
      some { objMeshC10 with verts := objMeshC10.verts.map (fun v =>
        if v.select
        then { v with co := (objMeshC10.matInvApp (quantize_vector_world (objMeshC10.matApp v.co) ctxC10.grid_size)) }
        else v) } := by
  have h := (((C10_quantize_frame ctxC10).2 0 objMeshC10 rfl rfl).2.2)
    ⟨rfl, rfl⟩
  exact ⟨h.1, h.2.2.1⟩

end GridSnap
